import Mathlib

/-!
Shallow embedding of the kaudit/k8s_client repository (Go).

The embedding covers:
* the validated, paginating list operations of the resource query facades
  (`internal/api/pod/pod.go`, `internal/api/namespace/namespace.go`; the
  service and deployment facades are verbatim copies of the pod facade
  modulo the resource type and error strings),
* the `GetByName` operations of the same facades,
* the composition root (`k8s-client/k8s-client.go`): option application,
  the "already configured" guard and final struct validation.

Modelling conventions:
* `time.Duration` is `Int` nanoseconds; `int64(d.Seconds())` is modelled as
  `Int.tdiv d 1000000000` (truncation toward zero, which is what the Go
  float-to-int conversion performs on these magnitudes).
* Go errors are `String`s; a fallible call returns `Except String`.
  `fmt.Errorf("...: %w", err)` is string concatenation of the prefix.
* The external validation library `github.com/kaudit/val` is a black box per
  the spec; its tag semantics (`required` = non-empty/non-zero, `min=1s`,
  `gt=0`) are concrete, while the selector grammar checks
  (`k8s_label_selector`, `k8s_field_selector`) are abstract boolean
  parameters.  Its error texts are fixed placeholder strings; the
  operation-identifying prefixes wrapped around them come verbatim from the
  source.
* The transport (`kubernetes.Interface`) is an abstract function from the
  request options to a page result; instrumented variants additionally
  return the list of requests issued, so that claims about the number and
  shape of transport calls can be stated.
-/

/-- Embeds `metav1.ListOptions` as used by the facades: label/field
selector, page-size limit, per-call timeout in whole seconds, and the
continue cursor. -/
structure ListOptions where
  labelSelector : String
  fieldSelector : String
  limit : Int
  timeoutSeconds : Int
  continueToken : String
deriving DecidableEq, Repr

/-- Embeds one transport page response: the items of the page plus the
continue cursor (`Continue` field of the returned list object); the empty
cursor signals the last page. -/
structure PageResult (α : Type) where
  items : List α
  continueToken : String
deriving DecidableEq, Repr

/-- The transport list capability for one resource kind: a function from
the request options to either an error or a page. -/
def Fetch (α : Type) : Type := ListOptions → Except String (PageResult α)

/-- Embeds the shared body of `loopForResult` (identical in
`pod.go:146-167`, `namespace.go:134-153` and the service/deployment
copies), instrumented with the accumulator `acc` (the `result` slice), a
fuel bound standing in for the unbounded Go `for` loop, and a trace of the
requests issued.  `wrap` is the per-kind error prefix
(`fmt.Errorf("failed to list ...: %w", err)`).  Returns the final result
together with the list of `ListOptions` values sent to the transport, in
call order. -/
def loopGo (fetch : Fetch α) (wrap : String → String) :
    Nat → ListOptions → List α → Except String (List α) × List ListOptions
  | 0, _, _ => (.error "pagination loop did not terminate", [])
  | fuel + 1, opts, acc =>
    match fetch opts with
    | .error e => (.error (wrap e), [opts])
    | .ok page =>
      if page.continueToken = "" then
        (.ok (acc ++ page.items), [opts])
      else
        let rest := loopGo fetch wrap fuel
          { opts with continueToken := page.continueToken } (acc ++ page.items)
        (rest.1, opts :: rest.2)

/-- Embeds `loopForResult`: runs the pagination loop from the given initial
options with an empty accumulator (`var result []corev1.Pod`). -/
def loopForResult (fetch : Fetch α) (wrap : String → String)
    (fuel : Nat) (opts : ListOptions) :
    Except String (List α) × List ListOptions :=
  loopGo fetch wrap fuel opts []

/-- Placeholder for the opaque error text `val.ValidateWithTag` returns for
a failed `required` tag. -/
def valRequiredErr : String := "required validation failed"

/-- Placeholder for the opaque error text `val.ValidateWithTag` returns for
a failed `min=1s` tag on a duration. -/
def valMinDurationErr : String := "min=1s validation failed"

/-- Placeholder for the opaque error text `val.ValidateWithTag` returns for
a failed `gt=0` tag on an integer. -/
def valGtZeroErr : String := "gt=0 validation failed"

/-- Placeholder for the opaque error text `val.ValidateWithTag` returns for
a selector that fails its grammar check. -/
def valSelectorErr : String := "selector syntax validation failed"

/-- One second in nanoseconds (`time.Duration` is int64 nanoseconds). -/
def oneSecondNs : Int := 1000000000

/-- Embeds `val.ValidateWithTag(d, "required,min=1s")` on a duration: the
`required` tag rejects the zero duration and `min=1s` rejects anything
below one second, so the combination fails exactly when `d < 1s`. -/
def valTimeout (timeoutNs : Int) : Option String :=
  if timeoutNs < oneSecondNs then some valMinDurationErr else none

/-- Embeds `val.ValidateWithTag(limit, "required,gt=0")` on an int64: the
`required` tag rejects zero and `gt=0` rejects non-positives, so the
combination fails exactly when `limit ≤ 0`. -/
def valLimit (limit : Int) : Option String :=
  if limit ≤ 0 then some valGtZeroErr else none

/-- Embeds `pod.validateInput` (`pod.go:121-135`): namespace `required`,
then timeout `required,min=1s`, then limit `required,gt=0`; the first
failing check returns, wrapped with its field-identifying prefix. -/
def validateInput (ns : String) (timeoutNs : Int) (limit : Int) :
    Option String :=
  if ns = "" then some ("invalid namespace: " ++ valRequiredErr)
  else
    match valTimeout timeoutNs with
    | some e => some ("invalid timeout: " ++ e)
    | none =>
      match valLimit limit with
      | some e => some ("invalid limit: " ++ e)
      | none => none

/-- Embeds `namespace.validateInput` (`namespace.go:114-124`): same as the
pod version but with no namespace argument (namespaces are cluster-wide). -/
def validateInputNs (timeoutNs : Int) (limit : Int) : Option String :=
  match valTimeout timeoutNs with
  | some e => some ("invalid timeout: " ++ e)
  | none =>
    match valLimit limit with
    | some e => some ("invalid limit: " ++ e)
    | none => none

/-- Embeds `val.ValidateWithTag(sel, "required,k8s_label_selector")` (and
the field-selector analogue): the `required` tag rejects the empty string
first, then the grammar check `selOk` — an abstract predicate, since the
selector grammar is an external black box — runs. -/
def valSelector (selOk : String → Bool) (sel : String) : Option String :=
  if sel = "" then some valRequiredErr
  else if selOk sel then none
  else some valSelectorErr

/-- Embeds `int64(timeoutSeconds.Seconds())` (`pod.go:76`): the duration in
nanoseconds divided by one second, truncated toward zero. -/
def durationToSeconds (timeoutNs : Int) : Int :=
  Int.tdiv timeoutNs oneSecondNs

/-- Embeds the error prefix of `PodAPI.loopForResult`
(`fmt.Errorf("failed to list pods in namespace %q: %w", namespace, err)`). -/
def podListWrap (ns : String) (e : String) : String :=
  "failed to list pods in namespace \"" ++ ns ++ "\": " ++ e

/-- Embeds the error prefix of `NamespaceAPI.loopForResult`
(`fmt.Errorf("failed to list namespaces: %w", err)`). -/
def nsListWrap (e : String) : String :=
  "failed to list namespaces: " ++ e

/-- Embeds `PodAPI.ListPodsByLabel` (`pod.go:66-85`): validate namespace,
timeout and limit; validate the label selector; convert the timeout to
whole seconds; build the initial `ListOptions` with an empty cursor; drive
the pagination loop.  Returns the result and the transport-call trace. -/
def listPodsByLabel (fetch : Fetch α) (labelSelOk : String → Bool)
    (fuel : Nat) (ns labelSelector : String) (timeoutNs limit : Int) :
    Except String (List α) × List ListOptions :=
  match validateInput ns timeoutNs limit with
  | some e => (.error e, [])
  | none =>
    match valSelector labelSelOk labelSelector with
    | some e => (.error ("invalid label selector: " ++ e), [])
    | none =>
      let seconds := durationToSeconds timeoutNs
      let opts : ListOptions :=
        { labelSelector := labelSelector
          fieldSelector := ""
          limit := limit
          timeoutSeconds := seconds
          continueToken := "" }
      loopForResult fetch (podListWrap ns) fuel opts

/-- Embeds `PodAPI.ListPodsByField` (`pod.go:97-116`): identical to the
label variant but validating against the field-selector grammar and
setting `FieldSelector` on the options. -/
def listPodsByField (fetch : Fetch α) (fieldSelOk : String → Bool)
    (fuel : Nat) (ns fieldSelector : String) (timeoutNs limit : Int) :
    Except String (List α) × List ListOptions :=
  match validateInput ns timeoutNs limit with
  | some e => (.error e, [])
  | none =>
    match valSelector fieldSelOk fieldSelector with
    | some e => (.error ("invalid field selector: " ++ e), [])
    | none =>
      let seconds := durationToSeconds timeoutNs
      let opts : ListOptions :=
        { labelSelector := ""
          fieldSelector := fieldSelector
          limit := limit
          timeoutSeconds := seconds
          continueToken := "" }
      loopForResult fetch (podListWrap ns) fuel opts

/-- Embeds `NamespaceAPI.ListNamespacesByLabel` (`namespace.go:60-79`):
like the pod version but with no namespace scope. -/
def listNamespacesByLabel (fetch : Fetch α) (labelSelOk : String → Bool)
    (fuel : Nat) (labelSelector : String) (timeoutNs limit : Int) :
    Except String (List α) × List ListOptions :=
  match validateInputNs timeoutNs limit with
  | some e => (.error e, [])
  | none =>
    match valSelector labelSelOk labelSelector with
    | some e => (.error ("invalid label selector: " ++ e), [])
    | none =>
      let seconds := durationToSeconds timeoutNs
      let opts : ListOptions :=
        { labelSelector := labelSelector
          fieldSelector := ""
          limit := limit
          timeoutSeconds := seconds
          continueToken := "" }
      loopForResult fetch nsListWrap fuel opts

/-- Embeds `NamespaceAPI.ListNamespacesByField` (`namespace.go:90-109`). -/
def listNamespacesByField (fetch : Fetch α) (fieldSelOk : String → Bool)
    (fuel : Nat) (fieldSelector : String) (timeoutNs limit : Int) :
    Except String (List α) × List ListOptions :=
  match validateInputNs timeoutNs limit with
  | some e => (.error e, [])
  | none =>
    match valSelector fieldSelOk fieldSelector with
    | some e => (.error ("invalid field selector: " ++ e), [])
    | none =>
      let seconds := durationToSeconds timeoutNs
      let opts : ListOptions :=
        { labelSelector := ""
          fieldSelector := fieldSelector
          limit := limit
          timeoutSeconds := seconds
          continueToken := "" }
      loopForResult fetch nsListWrap fuel opts

/-- Embeds `PodAPI.GetPodByName` (`pod.go:40-54`): namespace and name are
validated as `required`; only then is the transport `get` invoked, its
error wrapped with the operation-identifying prefix.  The transport is an
abstract function from (namespace, name) to a record or error. -/
def getPodByName (get : String → String → Except String α)
    (ns name : String) : Except String α :=
  if ns = "" then .error ("invalid namespace: " ++ valRequiredErr)
  else if name = "" then .error ("invalid pod name: " ++ valRequiredErr)
  else
    match get ns name with
    | .error e =>
      .error ("failed to get pod \"" ++ name ++ "\" in namespace \"" ++
        ns ++ "\": " ++ e)
    | .ok p => .ok p

/-- Embeds `NamespaceAPI.GetNamespaceByName` (`namespace.go:39-49`): only
the name is validated (cluster-wide kind), then the transport `get` runs. -/
def getNamespaceByName (get : String → Except String α)
    (name : String) : Except String α :=
  if name = "" then .error ("invalid namespace name: " ++ valRequiredErr)
  else
    match get name with
    | .error e => .error ("failed to get namespace \"" ++ name ++ "\": " ++ e)
    | .ok n => .ok n

/-- Embeds the composition root struct `K8sClient` (`k8s-client.go:26-31`):
four facade slots, each tagged `validator:"required"` (non-nil).  `H` is
the opaque client handle type; a facade is modelled by the handle it wraps
(each `New...API(n)` constructor stores `n` and nothing else). -/
structure K8sClient (H : Type) where
  pods : Option H
  services : Option H
  deployments : Option H
  namespaces : Option H
deriving DecidableEq, Repr

/-- The zero value `&K8sClient{}` that `NewK8sClient` starts from. -/
def emptyClient (H : Type) : K8sClient H :=
  { pods := none, services := none, deployments := none, namespaces := none }

/-- Embeds `val.ValidateStruct` on `K8sClient`: succeeds (returns no error)
exactly when all four `validator:"required"` fields are non-nil. -/
def validateStruct (c : K8sClient H) : Option String :=
  if c.pods.isSome && c.services.isSome && c.deployments.isSome &&
      c.namespaces.isSome then none
  else some valRequiredErr

/-- The sentinel `ErrAlreadyConfigured` (`k8s-client.go:18`). -/
def errAlreadyConfigured : String := "k8s client already configured"

/-- A `K8sClientOption` (`k8s-client.go:33`): in Go it mutates the client
through a pointer and returns an error; modelled as a function from the
client state to the new state paired with the optional error. -/
def K8sClientOpt (H : Type) : Type := K8sClient H → K8sClient H × Option String

/-- Embeds `WithKubeConfigLoader` (`k8s-client.go:42-61`): if the struct
already validates (all facades installed) the option fails with
`ErrAlreadyConfigured` and leaves the client untouched; otherwise the
kubeconfig connection is attempted (its outcome `nativeAPI` abstracts
`kubeconfig.NewKubeConfigConnection(loader).NativeAPI()`), a failure is
wrapped, and a success installs all four facades from the handle. -/
def withKubeConfigLoader (nativeAPI : Except String H) : K8sClientOpt H :=
  fun c =>
    match validateStruct c with
    | none => (c, some errAlreadyConfigured)
    | some _ =>
      match nativeAPI with
      | .error e => (c, some ("failed to init k8s client: " ++ e))
      | .ok n =>
        ({ pods := some n, services := some n, deployments := some n,
           namespaces := some n }, none)

/-- Embeds `WithServiceAccount` (`k8s-client.go:70-89`): same shape as
`withKubeConfigLoader`, with the ambient connection outcome `saAPI`
abstracting `serviceaccount.ServiceAccountConnectionNativeAPI()` and its
own error prefix. -/
def withServiceAccount (saAPI : Except String H) : K8sClientOpt H :=
  fun c =>
    match validateStruct c with
    | none => (c, some errAlreadyConfigured)
    | some _ =>
      match saAPI with
      | .error e =>
        (c, some ("failed to init k8s client with service account: " ++ e))
      | .ok n =>
        ({ pods := some n, services := some n, deployments := some n,
           namespaces := some n }, none)

/-- Embeds the option-application loop of `NewK8sClient`
(`k8s-client.go:94-98`): apply each option in order; the first option that
returns an error aborts with that error wrapped as
`failed to configure k8s client: ...`. -/
def applyOptions : List (K8sClientOpt H) → K8sClient H →
    Except String (K8sClient H)
  | [], c => .ok c
  | o :: rest, c =>
    match o c with
    | (_, some e) => .error ("failed to configure k8s client: " ++ e)
    | (cNext, none) => applyOptions rest cNext

/-- Embeds `NewK8sClient` (`k8s-client.go:91-106`): start from the zero
client, apply the options fail-fast, then validate the struct; a client
that is not fully populated is rejected. -/
def newK8sClient (opts : List (K8sClientOpt H)) :
    Except String (K8sClient H) :=
  match applyOptions opts (emptyClient H) with
  | .error e => .error e
  | .ok c =>
    match validateStruct c with
    | some e => .error ("failed to validate k8s client: " ++ e)
    | none => .ok c

/-- A transport behaves as an `N`-page chained stub from the given initial
options: each request in the chain succeeds, pages before the last carry a
non-empty continue cursor that the next request picks up, and the last
page carries the empty cursor.  This is the hypothesis of the pagination
completeness property. -/
def Chained (fetch : Fetch α) : ListOptions → List (PageResult α) → Prop
  | _, [] => False
  | opts, [page] => fetch opts = .ok page ∧ page.continueToken = ""
  | opts, page :: q :: qs =>
    fetch opts = .ok page ∧ page.continueToken ≠ "" ∧
    Chained fetch { opts with continueToken := page.continueToken } (q :: qs)

/-- The cursor carried by call `k` of a chained run: call `0` carries the
initial cursor `c`, and call `k+1` carries the cursor returned by page
`k`. -/
def chainCursor (c : String) : List (PageResult α) → Nat → String
  | _, 0 => c
  | [], _ + 1 => c
  | page :: rest, k + 1 => chainCursor page.continueToken rest k

/-- A transport runs a successful chain of pages with non-empty cursors
from `opts` and arrives at the request options `final`; used to place an
error after a prefix of successful pages. -/
def ChainedTo (fetch : Fetch α) :
    ListOptions → List (PageResult α) → ListOptions → Prop
  | opts, [], final => final = opts
  | opts, page :: rest, final =>
    fetch opts = .ok page ∧ page.continueToken ≠ "" ∧
    ChainedTo fetch { opts with continueToken := page.continueToken } rest final


/-- Core pagination lemma: if the transport is an `N`-page chained stub
from `opts`, and the fuel covers the `N` calls, the loop returns the
accumulator followed by the concatenation of the items of all pages in
order, and issues exactly `N` requests that differ from `opts` only in the
continue cursor, call `k` carrying `chainCursor opts.continueToken pages k`. -/
theorem loopGo_of_chained (fetch : Fetch α) (wrap : String → String) :
    ∀ (pages : List (PageResult α)) (opts : ListOptions) (acc : List α)
      (fuel : Nat),
    Chained fetch opts pages → pages.length ≤ fuel →
    loopGo fetch wrap fuel opts acc =
      (.ok (acc ++ (pages.map PageResult.items).flatten),
       (List.range pages.length).map
         (fun k =>
           { opts with continueToken := chainCursor opts.continueToken pages k }))
  | [], _, _, _, h, _ => absurd h (by simp [Chained])
  | [page], opts, acc, fuel, h, hfuel => by
    obtain ⟨hfetch, hlast⟩ := h
    match fuel, hfuel with
    | fuel + 1, _ =>
      simp [loopGo, hfetch, hlast, List.range_succ, chainCursor]
  | page :: q :: qs, opts, acc, fuel, h, hfuel => by
    obtain ⟨hfetch, hne, hrest⟩ := h
    match fuel, hfuel with
    | fuel + 1, hfuel =>
      have ih := loopGo_of_chained fetch wrap (q :: qs)
        { opts with continueToken := page.continueToken }
        (acc ++ page.items) fuel hrest (by simpa using Nat.succ_le_succ_iff.mp hfuel)
      simp only [loopGo, hfetch, if_neg hne, ih, Prod.mk.injEq]
      refine ⟨by simp, ?_⟩
      simp only [List.length_cons, List.range_succ_eq_map, List.map_cons,
        List.map_map]
      rfl

/-- Abort lemma: if the transport serves a successful chain of pages with
non-empty cursors and then fails at the request `final`, the loop returns
exactly the wrapped transport error — the accumulator (any pages fetched
so far) is discarded, whatever it contains. -/
theorem loopGo_err_of_chainedTo (fetch : Fetch α) (wrap : String → String)
    (e : String) :
    ∀ (pages : List (PageResult α)) (opts final : ListOptions)
      (acc : List α) (fuel : Nat),
    ChainedTo fetch opts pages final → fetch final = .error e →
    pages.length < fuel →
    (loopGo fetch wrap fuel opts acc).1 = .error (wrap e)
  | [], opts, final, acc, fuel, h, herr, hfuel => by
    have hfin : final = opts := h
    match fuel, hfuel with
    | fuel + 1, _ =>
      simp [loopGo, hfin ▸ herr]
  | page :: rest, opts, final, acc, fuel, h, herr, hfuel => by
    obtain ⟨hfetch, hne, hchain⟩ := h
    match fuel, hfuel with
    | fuel + 1, hfuel =>
      have ih := loopGo_err_of_chainedTo fetch wrap e rest
        { opts with continueToken := page.continueToken } final
        (acc ++ page.items) fuel hchain herr (by simpa using Nat.succ_le_succ_iff.mp hfuel)
      simp [loopGo, hfetch, if_neg hne, ih]

/-- Frame lemma: every request the loop sends differs from the initial
options only in the continue cursor. -/
theorem loopGo_frame (fetch : Fetch α) (wrap : String → String) :
    ∀ (fuel : Nat) (opts : ListOptions) (acc : List α) (r : ListOptions),
    r ∈ (loopGo fetch wrap fuel opts acc).2 →
    r = { opts with continueToken := r.continueToken }
  | 0, opts, acc, r => by simp [loopGo]
  | fuel + 1, opts, acc, r => by
    intro hr
    simp only [loopGo] at hr
    match hfetch : fetch opts with
    | .error e =>
      rw [hfetch] at hr
      simp at hr
      subst hr
      rfl
    | .ok page =>
      rw [hfetch] at hr
      by_cases hc : page.continueToken = ""
      · simp [hc] at hr
        subst hr
        rfl
      · simp only [if_neg hc, List.mem_cons] at hr
        rcases hr with hr | hr
        · subst hr; rfl
        · have := loopGo_frame fetch wrap fuel
            { opts with continueToken := page.continueToken }
            (acc ++ page.items) r hr
          rw [this]

/-- The initial `ListOptions` built by the label-selector list operations:
empty field selector and empty continue cursor. -/
def labelListOpts (sel : String) (timeoutNs limit : Int) : ListOptions :=
  { labelSelector := sel
    fieldSelector := ""
    limit := limit
    timeoutSeconds := durationToSeconds timeoutNs
    continueToken := "" }

/-- The initial `ListOptions` built by the field-selector list operations. -/
def fieldListOpts (fsel : String) (timeoutNs limit : Int) : ListOptions :=
  { labelSelector := ""
    fieldSelector := fsel
    limit := limit
    timeoutSeconds := durationToSeconds timeoutNs
    continueToken := "" }

/-- On valid inputs, `ListPodsByLabel` reduces to the pagination loop over
the initial options. -/
theorem listPodsByLabel_valid (fetch : Fetch α) (labelSelOk : String → Bool)
    (fuel : Nat) (ns sel : String) (timeoutNs limit : Int)
    (hns : ns ≠ "") (ht : oneSecondNs ≤ timeoutNs) (hl : 0 < limit)
    (hsel : sel ≠ "") (hok : labelSelOk sel = true) :
    listPodsByLabel fetch labelSelOk fuel ns sel timeoutNs limit =
      loopForResult fetch (podListWrap ns) fuel
        (labelListOpts sel timeoutNs limit) := by
  simp [listPodsByLabel, validateInput, valTimeout, valLimit, valSelector,
    hns, hsel, hok, not_lt.mpr ht, not_le.mpr hl, labelListOpts]

/-- On valid inputs, `ListPodsByField` reduces to the pagination loop over
the initial options. -/
theorem listPodsByField_valid (fetch : Fetch α) (fieldSelOk : String → Bool)
    (fuel : Nat) (ns fsel : String) (timeoutNs limit : Int)
    (hns : ns ≠ "") (ht : oneSecondNs ≤ timeoutNs) (hl : 0 < limit)
    (hsel : fsel ≠ "") (hok : fieldSelOk fsel = true) :
    listPodsByField fetch fieldSelOk fuel ns fsel timeoutNs limit =
      loopForResult fetch (podListWrap ns) fuel
        (fieldListOpts fsel timeoutNs limit) := by
  simp [listPodsByField, validateInput, valTimeout, valLimit, valSelector,
    hns, hsel, hok, not_lt.mpr ht, not_le.mpr hl, fieldListOpts]

/-- On valid inputs, `ListNamespacesByLabel` reduces to the pagination loop
over the initial options. -/
theorem listNamespacesByLabel_valid (fetch : Fetch α)
    (labelSelOk : String → Bool) (fuel : Nat) (sel : String)
    (timeoutNs limit : Int)
    (ht : oneSecondNs ≤ timeoutNs) (hl : 0 < limit)
    (hsel : sel ≠ "") (hok : labelSelOk sel = true) :
    listNamespacesByLabel fetch labelSelOk fuel sel timeoutNs limit =
      loopForResult fetch nsListWrap fuel
        (labelListOpts sel timeoutNs limit) := by
  simp [listNamespacesByLabel, validateInputNs, valTimeout, valLimit,
    valSelector, hsel, hok, not_lt.mpr ht, not_le.mpr hl, labelListOpts]

/-- On valid inputs, `ListNamespacesByField` reduces to the pagination loop
over the initial options. -/
theorem listNamespacesByField_valid (fetch : Fetch α)
    (fieldSelOk : String → Bool) (fuel : Nat) (fsel : String)
    (timeoutNs limit : Int)
    (ht : oneSecondNs ≤ timeoutNs) (hl : 0 < limit)
    (hsel : fsel ≠ "") (hok : fieldSelOk fsel = true) :
    listNamespacesByField fetch fieldSelOk fuel fsel timeoutNs limit =
      loopForResult fetch nsListWrap fuel
        (fieldListOpts fsel timeoutNs limit) := by
  simp [listNamespacesByField, validateInputNs, valTimeout, valLimit,
    valSelector, hsel, hok, not_lt.mpr ht, not_le.mpr hl, fieldListOpts]

/-- Option application distributes over list append: the options of the
second block run only if the whole first block succeeded, on the state the
first block produced. -/
theorem applyOptions_append (xs ys : List (K8sClientOpt H)) :
    ∀ c : K8sClient H,
    applyOptions (xs ++ ys) c =
      (applyOptions xs c).bind (fun cMid => applyOptions ys cMid) := by
  induction xs with
  | nil => intro c; rfl
  | cons o rest ih =>
    intro c
    simp only [List.cons_append, applyOptions]
    match o c with
    | (_, some e) => rfl
    | (cNext, none) => exact ih cNext

/-- C1: Pagination completeness.  For a list operation (shown for the
namespaced pod facade with a label selector and for the cluster-wide
namespace facade with a field selector) whose inputs pass validation, if
the transport behaves as an `N`-page chained stub — pages `1..N-1` with
non-empty continue cursors, page `N` with the empty cursor — then the
operation returns the concatenation of the items of all `N` pages in page
order, and the transport receives exactly `N` calls, call `1` carrying the
empty cursor and call `k+1` carrying exactly the cursor returned by call
`k` (`chainCursor`). -/
theorem pagination_completeness {α β : Type}
    (fetchP : Fetch α) (fetchN : Fetch β)
    (labelSelOk fieldSelOk : String → Bool) (ns sel fsel : String)
    (timeoutNs limit : Int)
    (pagesP : List (PageResult α)) (pagesN : List (PageResult β))
    (fuelP fuelN : Nat)
    (hns : ns ≠ "") (ht : oneSecondNs ≤ timeoutNs) (hl : 0 < limit)
    (hsel : sel ≠ "") (hok : labelSelOk sel = true)
    (hfsel : fsel ≠ "") (hfok : fieldSelOk fsel = true)
    (hchP : Chained fetchP (labelListOpts sel timeoutNs limit) pagesP)
    (hchN : Chained fetchN (fieldListOpts fsel timeoutNs limit) pagesN)
    (hfp : pagesP.length ≤ fuelP) (hfn : pagesN.length ≤ fuelN) :
    listPodsByLabel fetchP labelSelOk fuelP ns sel timeoutNs limit =
      (.ok (pagesP.map PageResult.items).flatten,
       (List.range pagesP.length).map
         (fun k => { labelListOpts sel timeoutNs limit with
                     continueToken := chainCursor "" pagesP k })) ∧
    listNamespacesByField fetchN fieldSelOk fuelN fsel timeoutNs limit =
      (.ok (pagesN.map PageResult.items).flatten,
       (List.range pagesN.length).map
         (fun k => { fieldListOpts fsel timeoutNs limit with
                     continueToken := chainCursor "" pagesN k })) := by
  constructor
  · rw [listPodsByLabel_valid fetchP labelSelOk fuelP ns sel timeoutNs limit
      hns ht hl hsel hok]
    have h := loopGo_of_chained fetchP (podListWrap ns) pagesP
      (labelListOpts sel timeoutNs limit) [] fuelP hchP hfp
    simpa [loopForResult] using h
  · rw [listNamespacesByField_valid fetchN fieldSelOk fuelN fsel timeoutNs
      limit ht hl hfsel hfok]
    have h := loopGo_of_chained fetchN nsListWrap pagesN
      (fieldListOpts fsel timeoutNs limit) [] fuelN hchN hfn
    simpa [loopForResult] using h

/-- A two-page chained pod transport stub used to instantiate the
pagination theorems on concrete data. -/
def podStubFetch : Fetch Nat := fun o =>
  if o.continueToken = "" then .ok { items := [1, 2], continueToken := "p2" }
  else if o.continueToken = "p2" then .ok { items := [3], continueToken := "" }
  else .error "unexpected cursor"

/-- A one-page namespace transport stub used to instantiate the pagination
theorems on concrete data. -/
def nsStubFetch : Fetch Nat := fun o =>
  if o.continueToken = "" then .ok { items := [7], continueToken := "" }
  else .error "unexpected cursor"

/-- Witness for C1: a concrete two-page pod run accumulates `[1, 2, 3]`
across two chained calls, and a concrete one-page namespace run returns
its single page from one call. -/
theorem pagination_completeness_witness :
    listPodsByLabel podStubFetch (fun _ => true) 2 "ns" "app=test-app"
        oneSecondNs 2 =
      (.ok [1, 2, 3],
       [labelListOpts "app=test-app" oneSecondNs 2,
        { labelListOpts "app=test-app" oneSecondNs 2 with
          continueToken := "p2" }]) ∧
    listNamespacesByField nsStubFetch (fun _ => true) 1 "metadata.name=x"
        oneSecondNs 2 =
      (.ok [7], [fieldListOpts "metadata.name=x" oneSecondNs 2]) :=
  pagination_completeness podStubFetch nsStubFetch
    (fun _ => true) (fun _ => true) "ns" "app=test-app" "metadata.name=x"
    oneSecondNs 2
    [{ items := [1, 2], continueToken := "p2" },
     { items := [3], continueToken := "" }]
    [{ items := [7], continueToken := "" }] 2 1
    (by decide) (le_refl _) (by decide) (by decide) rfl (by decide) rfl
    ⟨rfl, by decide, rfl, rfl⟩ ⟨rfl, rfl⟩ (by decide) (by decide)

/-- C2: Pagination abort with no partial results.  For a list operation
(pod and namespace facades shown), if the transport serves a chain of
successful pages with non-empty cursors and then fails on the next page —
in particular after one or more successful pages — the operation returns
the transport error wrapped with the operation-identifying prefix, and no
items at all: the `Except.error` result carries none of the items
accumulated from the earlier pages. -/
theorem pagination_abort_no_partial {α β : Type}
    (fetchP : Fetch α) (fetchN : Fetch β)
    (labelSelOk fieldSelOk : String → Bool) (ns sel fsel : String)
    (timeoutNs limit : Int)
    (qsP : List (PageResult α)) (qsN : List (PageResult β))
    (finalP finalN : ListOptions) (e eN : String) (fuelP fuelN : Nat)
    (hns : ns ≠ "") (ht : oneSecondNs ≤ timeoutNs) (hl : 0 < limit)
    (hsel : sel ≠ "") (hok : labelSelOk sel = true)
    (hfsel : fsel ≠ "") (hfok : fieldSelOk fsel = true)
    (hchP : ChainedTo fetchP (labelListOpts sel timeoutNs limit) qsP finalP)
    (herrP : fetchP finalP = .error e)
    (hchN : ChainedTo fetchN (fieldListOpts fsel timeoutNs limit) qsN finalN)
    (herrN : fetchN finalN = .error eN)
    (hfp : qsP.length < fuelP) (hfn : qsN.length < fuelN) :
    (listPodsByLabel fetchP labelSelOk fuelP ns sel timeoutNs limit).1 =
      .error (podListWrap ns e) ∧
    (listNamespacesByField fetchN fieldSelOk fuelN fsel timeoutNs limit).1 =
      .error (nsListWrap eN) := by
  constructor
  · rw [listPodsByLabel_valid fetchP labelSelOk fuelP ns sel timeoutNs limit
      hns ht hl hsel hok]
    exact loopGo_err_of_chainedTo fetchP (podListWrap ns) e qsP
      (labelListOpts sel timeoutNs limit) finalP [] fuelP hchP herrP hfp
  · rw [listNamespacesByField_valid fetchN fieldSelOk fuelN fsel timeoutNs
      limit ht hl hfsel hfok]
    exact loopGo_err_of_chainedTo fetchN nsListWrap eN qsN
      (fieldListOpts fsel timeoutNs limit) finalN [] fuelN hchN herrN hfn

/-- A pod transport stub whose first page succeeds with a non-empty cursor
and whose second page fails, used to instantiate the abort theorem. -/
def podFailingFetch : Fetch Nat := fun o =>
  if o.continueToken = "" then .ok { items := [1, 2], continueToken := "p2" }
  else .error "connection reset"

/-- A namespace transport stub that fails on its very first page. -/
def nsFailingFetch : Fetch Nat := fun _ =>
  .error "unauthorized"

/-- Witness for C2: the pod run whose second page fails returns exactly
the wrapped transport error (the items `[1, 2]` of page 1 are not observable),
and the namespace run failing on page 1 returns its wrapped error. -/
theorem pagination_abort_no_partial_witness :
    (listPodsByLabel podFailingFetch (fun _ => true) 3 "ns" "app=test-app"
        oneSecondNs 2).1 =
      .error (podListWrap "ns" "connection reset") ∧
    (listNamespacesByField nsFailingFetch (fun _ => true) 3 "metadata.name=x"
        oneSecondNs 2).1 =
      .error (nsListWrap "unauthorized") :=
  pagination_abort_no_partial podFailingFetch nsFailingFetch
    (fun _ => true) (fun _ => true) "ns" "app=test-app" "metadata.name=x"
    oneSecondNs 2
    [{ items := [1, 2], continueToken := "p2" }] []
    { labelListOpts "app=test-app" oneSecondNs 2 with continueToken := "p2" }
    (fieldListOpts "metadata.name=x" oneSecondNs 2)
    "connection reset" "unauthorized" 3 3
    (by decide) (le_refl _) (by decide) (by decide) rfl (by decide) rfl
    ⟨rfl, by decide, rfl⟩ rfl rfl rfl (by decide) (by decide)

/-- C3: Composition-root exclusivity with the first configuration
preserved.  Configuring a fresh root with the kubeconfig (path-based)
option succeeds and installs all four facades from the handle; a
subsequent service-account (ambient) option on the same root — whatever
its connection outcome `sa` — is rejected with the "already configured"
error and leaves the root exactly as the first option left it.  The same
holds with the two options in the opposite order. -/
theorem composition_root_exclusivity {H : Type} (h : H)
    (sa kc : Except String H) :
    (withKubeConfigLoader (.ok h) (emptyClient H)).2 = none ∧
    (withKubeConfigLoader (.ok h) (emptyClient H)).1 =
      { pods := some h, services := some h, deployments := some h,
        namespaces := some h } ∧
    withServiceAccount sa ((withKubeConfigLoader (.ok h) (emptyClient H)).1) =
      ((withKubeConfigLoader (.ok h) (emptyClient H)).1,
       some errAlreadyConfigured) ∧
    (withServiceAccount (.ok h) (emptyClient H)).2 = none ∧
    (withServiceAccount (.ok h) (emptyClient H)).1 =
      { pods := some h, services := some h, deployments := some h,
        namespaces := some h } ∧
    withKubeConfigLoader kc ((withServiceAccount (.ok h) (emptyClient H)).1) =
      ((withServiceAccount (.ok h) (emptyClient H)).1,
       some errAlreadyConfigured) :=
  ⟨rfl, rfl, rfl, rfl, rfl, rfl⟩

/-- C7: Fail-fast option application.  `NewK8sClient` applies its options
in order: if the options split as `pre ++ o :: post` where `pre` succeeds
and `o` fails with `e`, construction returns the error of `o` wrapped as
`failed to configure k8s client: e`, whatever the later options `post`
are.  If all options succeed, the resulting root is checked to be fully
populated: construction returns it when `validateStruct` passes and fails
with the wrapped validation error otherwise — and `validateStruct` passing
is exactly all four facade slots being non-nil. -/
theorem fail_fast_option_application {H : Type}
    (pre post : List (K8sClientOpt H)) (o : K8sClientOpt H)
    (opts : List (K8sClientOpt H)) (cMid c : K8sClient H) (e : String)
    (hpre : applyOptions pre (emptyClient H) = .ok cMid)
    (ho : (o cMid).2 = some e)
    (hall : applyOptions opts (emptyClient H) = .ok c) :
    newK8sClient (pre ++ o :: post) =
      .error ("failed to configure k8s client: " ++ e) ∧
    (validateStruct c = none → newK8sClient opts = .ok c) ∧
    (∀ e2, validateStruct c = some e2 →
      newK8sClient opts = .error ("failed to validate k8s client: " ++ e2)) ∧
    (validateStruct c = none ↔
      (c.pods.isSome = true ∧ c.services.isSome = true ∧
       c.deployments.isSome = true ∧ c.namespaces.isSome = true)) := by
  have happ : applyOptions (pre ++ o :: post) (emptyClient H) =
      .error ("failed to configure k8s client: " ++ e) := by
    rw [applyOptions_append pre (o :: post) (emptyClient H), hpre]
    show applyOptions (o :: post) cMid = _
    simp only [applyOptions]
    rcases hoc : o cMid with ⟨c1, e1⟩
    rw [hoc] at ho
    simp only at ho
    rw [ho]
  refine ⟨?_, ?_, ?_, ?_⟩
  · rw [newK8sClient, happ]
  · intro hv
    rw [newK8sClient, hall]
    show (match validateStruct c with
      | some e2 => Except.error ("failed to validate k8s client: " ++ e2)
      | none => Except.ok c) = Except.ok c
    rw [hv]
  · intro e2 hv
    rw [newK8sClient, hall]
    show (match validateStruct c with
      | some e3 => Except.error ("failed to validate k8s client: " ++ e3)
      | none => Except.ok c) =
      Except.error ("failed to validate k8s client: " ++ e2)
    rw [hv]
  · rw [validateStruct]
    constructor
    · intro hv
      by_cases hc : (c.pods.isSome && c.services.isSome &&
          c.deployments.isSome && c.namespaces.isSome) = true
      · simpa [Bool.and_eq_true, and_assoc] using hc
      · rw [if_neg hc] at hv
        exact absurd hv (by simp)
    · intro hc
      have : (c.pods.isSome && c.services.isSome &&
          c.deployments.isSome && c.namespaces.isSome) = true := by
        simp [Bool.and_eq_true]
        exact ⟨⟨⟨hc.1, hc.2.1⟩, hc.2.2.1⟩, hc.2.2.2⟩
      rw [if_pos this]

/-- Witness for C7: a failing kubeconfig option aborts construction with
the wrapped option error, and a succeeding service-account option yields
the fully-populated client. -/
theorem fail_fast_option_application_witness :
    newK8sClient (H := Nat) [withKubeConfigLoader (Except.error "boom")] =
      .error ("failed to configure k8s client: " ++
        "failed to init k8s client: boom") ∧
    newK8sClient [withServiceAccount (Except.ok (5 : Nat))] =
      .ok { pods := some 5, services := some 5, deployments := some 5,
            namespaces := some 5 } := by
  have h := fail_fast_option_application (H := Nat) [] []
    (withKubeConfigLoader (Except.error "boom"))
    [withServiceAccount (Except.ok 5)]
    (emptyClient Nat)
    { pods := some 5, services := some 5, deployments := some 5,
      namespaces := some 5 }
    "failed to init k8s client: boom" rfl rfl rfl
  exact ⟨h.1, h.2.1 rfl⟩

/-- C4: Deterministic validation order with short-circuit.  For the
namespaced pod list operation the checks run in the fixed order
namespace-scope → timeout → limit → selector, and for the cluster-wide
namespace list operation in the order timeout → limit → selector: each
conjunct fixes a first failing check and quantifies over all later
arguments — in particular a timeout below one second or a non-positive
limit is rejected for every selector, valid or not — and the result is
exactly the error of that check with an empty transport-call trace (no network
call). -/
theorem validation_order_short_circuit {α β : Type} :
    (∀ (fetch : Fetch α) (selOk : String → Bool) (fuel : Nat)
        (sel : String) (t l : Int),
      listPodsByLabel fetch selOk fuel "" sel t l =
        (.error ("invalid namespace: " ++ valRequiredErr), [])) ∧
    (∀ (fetch : Fetch α) (selOk : String → Bool) (fuel : Nat)
        (ns sel : String) (t l : Int), ns ≠ "" → t < oneSecondNs →
      listPodsByLabel fetch selOk fuel ns sel t l =
        (.error ("invalid timeout: " ++ valMinDurationErr), [])) ∧
    (∀ (fetch : Fetch α) (selOk : String → Bool) (fuel : Nat)
        (ns sel : String) (t l : Int), ns ≠ "" → oneSecondNs ≤ t → l ≤ 0 →
      listPodsByLabel fetch selOk fuel ns sel t l =
        (.error ("invalid limit: " ++ valGtZeroErr), [])) ∧
    (∀ (fetch : Fetch α) (selOk : String → Bool) (fuel : Nat)
        (ns : String) (t l : Int), ns ≠ "" → oneSecondNs ≤ t → 0 < l →
      listPodsByLabel fetch selOk fuel ns "" t l =
        (.error ("invalid label selector: " ++ valRequiredErr), [])) ∧
    (∀ (fetch : Fetch α) (selOk : String → Bool) (fuel : Nat)
        (ns sel : String) (t l : Int), ns ≠ "" → oneSecondNs ≤ t → 0 < l →
        sel ≠ "" → selOk sel = false →
      listPodsByLabel fetch selOk fuel ns sel t l =
        (.error ("invalid label selector: " ++ valSelectorErr), [])) ∧
    (∀ (fetch : Fetch β) (selOk : String → Bool) (fuel : Nat)
        (sel : String) (t l : Int), t < oneSecondNs →
      listNamespacesByLabel fetch selOk fuel sel t l =
        (.error ("invalid timeout: " ++ valMinDurationErr), [])) ∧
    (∀ (fetch : Fetch β) (selOk : String → Bool) (fuel : Nat)
        (sel : String) (t l : Int), oneSecondNs ≤ t → l ≤ 0 →
      listNamespacesByLabel fetch selOk fuel sel t l =
        (.error ("invalid limit: " ++ valGtZeroErr), [])) := by
  refine ⟨?_, ?_, ?_, ?_, ?_, ?_, ?_⟩
  · intro fetch selOk fuel sel t l
    simp [listPodsByLabel, validateInput]
  · intro fetch selOk fuel ns sel t l hns ht
    simp [listPodsByLabel, validateInput, valTimeout, hns, ht]
  · intro fetch selOk fuel ns sel t l hns ht hl
    simp [listPodsByLabel, validateInput, valTimeout, valLimit, hns,
      not_lt.mpr ht, hl]
  · intro fetch selOk fuel ns t l hns ht hl
    simp [listPodsByLabel, validateInput, valTimeout, valLimit, valSelector,
      hns, not_lt.mpr ht, not_le.mpr hl]
  · intro fetch selOk fuel ns sel t l hns ht hl hsel hbad
    simp [listPodsByLabel, validateInput, valTimeout, valLimit, valSelector,
      hns, not_lt.mpr ht, not_le.mpr hl, hsel, hbad]
  · intro fetch selOk fuel sel t l ht
    simp [listNamespacesByLabel, validateInputNs, valTimeout, ht]
  · intro fetch selOk fuel sel t l ht hl
    simp [listNamespacesByLabel, validateInputNs, valTimeout, valLimit,
      not_lt.mpr ht, hl]

/-- Witness for C4: a 500 ms timeout is rejected as an invalid timeout
even though the label selector is also invalid (empty, with a
reject-everything grammar), and a zero limit on the namespace facade is
rejected as an invalid limit under an invalid selector; neither run calls
the transport. -/
theorem validation_order_short_circuit_witness :
    listPodsByLabel podStubFetch (fun _ => false) 1 "ns" "" 500000000 7 =
      (.error ("invalid timeout: " ++ valMinDurationErr), []) ∧
    listNamespacesByLabel nsStubFetch (fun _ => false) 1 "" oneSecondNs 0 =
      (.error ("invalid limit: " ++ valGtZeroErr), []) :=
  ⟨(validation_order_short_circuit (α := Nat) (β := Nat)).2.1
      podStubFetch (fun _ => false) 1 "ns" "" 500000000 7
      (by decide) (by decide),
   (validation_order_short_circuit (α := Nat) (β := Nat)).2.2.2.2.2.2
      nsStubFetch (fun _ => false) 1 "" oneSecondNs 0
      (le_refl _) (by decide)⟩

/-- C5: GetByName precondition guard.  For the namespaced pod facade an
empty namespace, or an empty name, yields a validation error naming the
offending field; for the cluster-wide namespace facade an empty name does
likewise.  Each equation is universally quantified over the transport
`get` function, so the result is independent of the transport: it is never
invoked. -/
theorem get_by_name_guard {α β : Type} :
    (∀ (get : String → String → Except String α) (name : String),
      getPodByName get "" name =
        .error ("invalid namespace: " ++ valRequiredErr)) ∧
    (∀ (get : String → String → Except String α) (ns : String), ns ≠ "" →
      getPodByName get ns "" =
        .error ("invalid pod name: " ++ valRequiredErr)) ∧
    (∀ (get : String → Except String β),
      getNamespaceByName get "" =
        .error ("invalid namespace name: " ++ valRequiredErr)) := by
  refine ⟨fun get name => rfl, ?_, fun get => rfl⟩
  intro get ns hns
  simp [getPodByName, hns]

/-- Witness for C5: concrete calls with an always-succeeding transport
still return the field-naming validation errors. -/
theorem get_by_name_guard_witness :
    getPodByName (fun _ _ => Except.ok (0 : Nat)) "default" "" =
      .error ("invalid pod name: " ++ valRequiredErr) ∧
    getNamespaceByName (fun _ => Except.ok (0 : Nat)) "" =
      .error ("invalid namespace name: " ++ valRequiredErr) :=
  ⟨(get_by_name_guard (α := Nat) (β := Nat)).2.1
      (fun _ _ => Except.ok 0) "default" (by decide),
   (get_by_name_guard (α := Nat) (β := Nat)).2.2
      (fun _ => Except.ok 0)⟩

/-- C6: Timeout truncation to whole seconds.  For list operations whose
timeout passes validation, every request sent to the transport carries a
timeout-seconds value equal to the caller-supplied nanosecond duration
divided by one second with truncation (`Int.tdiv`), i.e. sub-second
precision is discarded. -/
theorem timeout_truncation {α β : Type}
    (fetchP : Fetch α) (fetchN : Fetch β)
    (labelSelOk fieldSelOk : String → Bool) (fuelP fuelN : Nat)
    (ns sel fsel : String) (timeoutNs limit : Int)
    (hns : ns ≠ "") (ht : oneSecondNs ≤ timeoutNs) (hl : 0 < limit)
    (hsel : sel ≠ "") (hok : labelSelOk sel = true)
    (hfsel : fsel ≠ "") (hfok : fieldSelOk fsel = true) :
    (∀ r ∈ (listPodsByLabel fetchP labelSelOk fuelP ns sel timeoutNs
        limit).2, r.timeoutSeconds = Int.tdiv timeoutNs oneSecondNs) ∧
    (∀ r ∈ (listNamespacesByField fetchN fieldSelOk fuelN fsel timeoutNs
        limit).2, r.timeoutSeconds = Int.tdiv timeoutNs oneSecondNs) := by
  constructor
  · intro r hr
    rw [listPodsByLabel_valid fetchP labelSelOk fuelP ns sel timeoutNs limit
      hns ht hl hsel hok] at hr
    have h := loopGo_frame fetchP (podListWrap ns) fuelP
      (labelListOpts sel timeoutNs limit) [] r hr
    rw [h]
    rfl
  · intro r hr
    rw [listNamespacesByField_valid fetchN fieldSelOk fuelN fsel timeoutNs
      limit ht hl hfsel hfok] at hr
    have h := loopGo_frame fetchN nsListWrap fuelN
      (fieldListOpts fsel timeoutNs limit) [] r hr
    rw [h]
    rfl

/-- Witness for C6: a 1500 ms timeout (1500000000 ns, which passes the
minimum-duration check) is sent to the transport as a 1-second budget:
the first request of a concrete run carries timeout-seconds 1. -/
theorem timeout_truncation_witness :
    (labelListOpts "app=test-app" 1500000000 2).timeoutSeconds =
      Int.tdiv 1500000000 oneSecondNs ∧
    Int.tdiv 1500000000 oneSecondNs = 1 :=
  ⟨(timeout_truncation (α := Nat) (β := Nat) podStubFetch nsStubFetch
      (fun _ => true) (fun _ => true) 2 1 "ns" "app=test-app"
      "metadata.name=x" 1500000000 2
      (by decide) (by decide) (by decide) (by decide) rfl (by decide)
      rfl).1
    (labelListOpts "app=test-app" 1500000000 2) (by decide),
   by decide⟩

/-- C8: Query-options frame across pages.  Every request the pagination
loop sends to the transport within one list operation agrees with the
initial request on the selector fields, the limit and the
timeout-seconds: only the continue cursor differs between successive
calls.  Stated for `loopForResult`, which every list operation of every
facade drives after validation. -/
theorem query_frame_across_pages {α : Type} (fetch : Fetch α)
    (wrap : String → String) (fuel : Nat) (opts : ListOptions) :
    ∀ r ∈ (loopForResult fetch wrap fuel opts).2,
      r.labelSelector = opts.labelSelector ∧
      r.fieldSelector = opts.fieldSelector ∧
      r.limit = opts.limit ∧
      r.timeoutSeconds = opts.timeoutSeconds := by
  intro r hr
  have h := loopGo_frame fetch wrap fuel opts [] r hr
  rw [h]
  exact ⟨rfl, rfl, rfl, rfl⟩

/-- Witness for C8: the second request of a concrete two-page pod run
(cursor `"p2"`) agrees with the first request on selector, limit and
timeout-seconds. -/
theorem query_frame_across_pages_witness :
    ({ labelListOpts "app=test-app" oneSecondNs 2 with
       continueToken := "p2" } : ListOptions).labelSelector =
      (labelListOpts "app=test-app" oneSecondNs 2).labelSelector ∧
    ({ labelListOpts "app=test-app" oneSecondNs 2 with
       continueToken := "p2" } : ListOptions).fieldSelector =
      (labelListOpts "app=test-app" oneSecondNs 2).fieldSelector ∧
    ({ labelListOpts "app=test-app" oneSecondNs 2 with
       continueToken := "p2" } : ListOptions).limit =
      (labelListOpts "app=test-app" oneSecondNs 2).limit ∧
    ({ labelListOpts "app=test-app" oneSecondNs 2 with
       continueToken := "p2" } : ListOptions).timeoutSeconds =
      (labelListOpts "app=test-app" oneSecondNs 2).timeoutSeconds :=
  query_frame_across_pages podStubFetch (podListWrap "ns") 2
    (labelListOpts "app=test-app" oneSecondNs 2)
    { labelListOpts "app=test-app" oneSecondNs 2 with continueToken := "p2" }
    (by decide)

/-- C9: Idempotence / determinism.  A list or get operation is a pure
function of its arguments and the transport responses: against two
transports that return the same response for every request — an unchanged
backing data set — the same invocation produces identical results (same
items in the same order, or the same error). -/
theorem operations_deterministic {α : Type}
    (fetch fetch2 : Fetch α) (get get2 : String → String → Except String α)
    (getN getN2 : String → Except String α) (labelSelOk : String → Bool)
    (fuel : Nat) (ns sel name : String) (timeoutNs limit : Int)
    (hf : ∀ o, fetch o = fetch2 o)
    (hg : ∀ a b, get a b = get2 a b)
    (hn : ∀ a, getN a = getN2 a) :
    listPodsByLabel fetch labelSelOk fuel ns sel timeoutNs limit =
      listPodsByLabel fetch2 labelSelOk fuel ns sel timeoutNs limit ∧
    getPodByName get ns name = getPodByName get2 ns name ∧
    getNamespaceByName getN name = getNamespaceByName getN2 name := by
  have hfe : fetch = fetch2 := funext hf
  have hge : get = get2 := funext fun a => funext fun b => hg a b
  have hne : getN = getN2 := funext hn
  rw [hfe, hge, hne]
  exact ⟨rfl, rfl, rfl⟩

/-- Witness for C9: two runs of the same pod list call against the same
two-page stub agree, as do two runs of the same get calls. -/
theorem operations_deterministic_witness :
    listPodsByLabel podStubFetch (fun _ => true) 2 "ns" "app=test-app"
        oneSecondNs 2 =
      listPodsByLabel podStubFetch (fun _ => true) 2 "ns" "app=test-app"
        oneSecondNs 2 ∧
    getPodByName (fun _ _ => Except.ok (3 : Nat)) "ns" "web" =
      getPodByName (fun _ _ => Except.ok (3 : Nat)) "ns" "web" ∧
    getNamespaceByName (fun _ => Except.ok (4 : Nat)) "web" =
      getNamespaceByName (fun _ => Except.ok (4 : Nat)) "web" :=
  operations_deterministic podStubFetch podStubFetch
    (fun _ _ => Except.ok 3) (fun _ _ => Except.ok 3)
    (fun _ => Except.ok 4) (fun _ => Except.ok 4)
    (fun _ => true) 2 "ns" "app=test-app" "web" oneSecondNs 2
    (fun _ => rfl) (fun _ _ => rfl) (fun _ => rfl)

/-- A validated timeout yields at least one whole second: `t ≥ 1s` implies
`tdiv t 1s ≥ 1`. -/
theorem one_le_durationToSeconds (t : Int) (ht : oneSecondNs ≤ t) :
    1 ≤ durationToSeconds t := by
  have ht9 : (1000000000 : Int) ≤ t := ht
  show (1 : Int) ≤ Int.tdiv t 1000000000
  rw [Int.tdiv_eq_ediv (by omega) (by omega)]
  exact (Int.le_ediv_iff_mul_le (by omega)).mpr (by omega)

/-- C10: The transport-level timeout-seconds is never zero.  For a list
operation whose inputs pass validation (timeout at least one second),
every request sent to the transport carries a timeout-seconds value of at
least 1: truncation cannot reach zero above the validated minimum. -/
theorem timeout_seconds_positive {α β : Type}
    (fetchP : Fetch α) (fetchN : Fetch β)
    (labelSelOk fieldSelOk : String → Bool) (fuelP fuelN : Nat)
    (ns sel fsel : String) (timeoutNs limit : Int)
    (hns : ns ≠ "") (ht : oneSecondNs ≤ timeoutNs) (hl : 0 < limit)
    (hsel : sel ≠ "") (hok : labelSelOk sel = true)
    (hfsel : fsel ≠ "") (hfok : fieldSelOk fsel = true) :
    (∀ r ∈ (listPodsByLabel fetchP labelSelOk fuelP ns sel timeoutNs
        limit).2, 1 ≤ r.timeoutSeconds) ∧
    (∀ r ∈ (listNamespacesByField fetchN fieldSelOk fuelN fsel timeoutNs
        limit).2, 1 ≤ r.timeoutSeconds) := by
  constructor
  · intro r hr
    rw [listPodsByLabel_valid fetchP labelSelOk fuelP ns sel timeoutNs limit
      hns ht hl hsel hok] at hr
    have h := loopGo_frame fetchP (podListWrap ns) fuelP
      (labelListOpts sel timeoutNs limit) [] r hr
    rw [h]
    exact one_le_durationToSeconds timeoutNs ht
  · intro r hr
    rw [listNamespacesByField_valid fetchN fieldSelOk fuelN fsel timeoutNs
      limit ht hl hfsel hfok] at hr
    have h := loopGo_frame fetchN nsListWrap fuelN
      (fieldListOpts fsel timeoutNs limit) [] r hr
    rw [h]
    exact one_le_durationToSeconds timeoutNs ht

/-- Witness for C10: the first request of a concrete run with a 2500 ms
timeout carries a timeout-seconds value of at least 1 (it is 2). -/
theorem timeout_seconds_positive_witness :
    1 ≤ (labelListOpts "app=test-app" 2500000000 2).timeoutSeconds :=
  (timeout_seconds_positive (α := Nat) (β := Nat) podStubFetch nsStubFetch
      (fun _ => true) (fun _ => true) 2 1 "ns" "app=test-app"
      "metadata.name=x" 2500000000 2
      (by decide) (by decide) (by decide) (by decide) rfl (by decide)
      rfl).1
    (labelListOpts "app=test-app" 2500000000 2) (by decide)
